import Mathlib

/-!
Shallow embedding of `libmesh`'s `PetscVector<T>` wrapper
(`src/include/numerics/petsc_vector.h`).

The PETSc backend (`Vec`, `VecCreate*`, `VecAssemblyBegin/End`,
`VecGhostUpdateBegin/End`, `VecSet`, ...) is an external collaborator; it is
modelled by a record of the creation-time shape of a `Vec` handle together
with a trace of backend calls that each wrapper operation emits.  The
wrapper's own state (`_is_closed`, `_is_initialized`, `_type`, the
global-to-local ghost map, the array cache flags, the ownership flag
`_destroy_vec_on_exit`, ...) is carried explicitly in a `PetscVector`
structure, and each member function of the C++ class becomes a Lean function
on that structure.
-/

namespace LibMeshPetsc

/-- Parallel storage types of a libMesh numeric vector (`ParallelType`). -/
inductive ParallelType
  | AUTOMATIC
  | SERIAL
  | PARALLEL
  | GHOSTED
deriving DecidableEq, Repr

/-- Kind of backend PETSc Vec object (sequential vs. MPI). -/
inductive VecKind
  | seq
  | mpi
deriving DecidableEq, Repr

/-- Shallow model of a backend PETSc `Vec` handle: its creation-time shape as
seen from the calling process.  `first`/`last` model the result of
`VecGetOwnershipRange`, `ghosts` the ghost index list of `VecCreateGhost`, and
`hasGhostMapping` whether the Vec carries a local-to-global mapping. -/
structure Vec where
  kind : VecKind
  globalSize : Nat
  localSize : Nat
  first : Nat
  last : Nat
  ghosts : List Nat
  hasGhostMapping : Bool
deriving DecidableEq, Repr

/-- A null / not-yet-created backend handle. -/
def nullVec : Vec := ⟨.seq, 0, 0, 0, 0, [], false⟩

/-- Backend `VecCreateSeq(PETSC_COMM_SELF, n, &vec)`. -/
def VecCreateSeq (n : Nat) : Vec := ⟨.seq, n, n, 0, n, [], false⟩

/-- Backend `VecCreateMPI(comm, n_local, n, &vec)`.  The backend chooses the
ownership start of this process; we take it as the parameter `f`. -/
def VecCreateMPI (f nl n : Nat) : Vec := ⟨.mpi, n, nl, f, f + nl, [], false⟩

/-- Backend `VecCreateGhost(comm, n_local, n, n_ghost, ghost, &vec)`. -/
def VecCreateGhost (f nl n : Nat) (ghost : List Nat) : Vec :=
  ⟨.mpi, n, nl, f, f + nl, ghost, true⟩

/-- Backend `VecDuplicate`: same shape, values not copied. -/
def VecDuplicate (v : Vec) : Vec := v

/-- The `GlobalToLocalMap` of the C++ class: an unordered map from global
ghost index to local offset, modelled as an association list where insertion
overwrites the binding of an existing key in place. -/
abbrev GMap := List (Nat × Nat)

/-- `m[k] = v` of the C++ unordered map: overwrite an existing binding for
`k`, otherwise append a new one. -/
def gmapInsert : GMap → Nat → Nat → GMap
  | [], k, v => [(k, v)]
  | (k0, v0) :: rest, k, v =>
      if k0 = k then (k, v) :: rest else (k0, v0) :: gmapInsert rest k v

/-- `m.find(k)` of the C++ unordered map. -/
def gmapFind : GMap → Nat → Option Nat
  | [], _ => none
  | (k0, v0) :: rest, k => if k0 = k then some v0 else gmapFind rest k

/-- Key set of the map (printed by the debug diagnostic of
`map_global_to_local_index`). -/
def gmapKeys (m : GMap) : List Nat := m.map Prod.fst

/-- The ghost-map construction loop of `PetscVector::init` (ghosted overload):
`for (i = i0; ...) _global_to_local_map[ghost[i]] = i`, starting from the
current map `m` and loop counter `i0`. -/
def buildGhostMapAux : GMap → Nat → List Nat → GMap
  | m, _, [] => m
  | m, i, g :: rest => buildGhostMapAux (gmapInsert m g i) (i + 1) rest

/-- State of one `PetscVector<T>` instance: the base-class flags
(`_is_closed`, `_is_initialized`, `_type` of `NumericVector`) plus the
members declared in `petsc_vector.h`.  The raw data pointers `_values` and
`_read_only_values` are modelled as opaque optional handles. -/
structure PetscVector where
  is_closed : Bool
  is_initialized : Bool
  type : ParallelType
  vec : Vec
  array_is_present : Bool
  first : Nat
  last : Nat
  local_size : Nat
  local_form : Option Vec
  read_only_values : Option Nat
  values : Option Nat
  global_to_local_map : GMap
  destroy_vec_on_exit : Bool
  values_manually_retrieved : Bool
  values_read_only : Bool
deriving DecidableEq, Repr

/-- The dummy constructor `PetscVector(comm, type)`: dimension 0, no backend
storage, owns whatever storage it later creates. -/
def mkDummy (pt : ParallelType) : PetscVector :=
  { is_closed := false
    is_initialized := false
    type := pt
    vec := nullVec
    array_is_present := false
    first := 0
    last := 0
    local_size := 0
    local_form := none
    read_only_values := none
    values := none
    global_to_local_map := []
    destroy_vec_on_exit := true
    values_manually_retrieved := false
    values_read_only := false }

/-- The wrapping constructor `PetscVector(Vec v, comm)`: adopts an existing
backend Vec without owning it (`_destroy_vec_on_exit = false`), marks the
vector initialized and closed, and rebuilds the ghost map from the backend's
local-to-global mapping when one is present. -/
def mkWrap (w : Vec) : PetscVector :=
  let base : PetscVector :=
    { mkDummy .AUTOMATIC with
        vec := w
        destroy_vec_on_exit := false
        is_closed := true
        is_initialized := true }
  match w.kind with
  | .seq => { base with type := .SERIAL }
  | .mpi =>
      if w.hasGhostMapping then
        { base with
            type := .GHOSTED
            global_to_local_map := buildGhostMapAux [] 0 w.ghosts }
      else
        { base with type := .PARALLEL }

/-- Errors of the embedded operations: `assertFail` models a
`libmesh_assert` that is only compiled in debug builds, `unsupportedType`
the unconditional `libmesh_error_msg("Unsupported type ...")` of `init`,
`indexErr` the debug diagnostic of `map_global_to_local_index` (carrying the
offending index, the ownership range and the ghost keys), and
`undefBehavior` the release-build dereference of a missing map key. -/
inductive VErr
  | assertFail
  | unsupportedType
  | indexErr (i first last : Nat) (ghosts : List Nat)
  | undefBehavior
deriving DecidableEq, Repr

/-- PETSc `InsertMode` (only the two constants used by this file). -/
inductive InsertMode
  | insertValues
  | addValues
deriving DecidableEq, Repr

/-- PETSc `ScatterMode`. -/
inductive ScatterDir
  | forward
  | reverse
deriving DecidableEq, Repr

/-- Backend calls emitted by the wrapper, in program order. -/
inductive Event
  | restoreArrayCache
  | restoreLocalFormCache
  | getArrayCache (ro : Bool)
  | getLocalFormCache
  | assemblyBegin
  | assemblyEnd
  | ghostUpdateBegin (m : InsertMode) (d : ScatterDir)
  | ghostUpdateEnd (m : InsertMode) (d : ScatterDir)
  | vecSetOwned
  | ghostGetLocalForm
  | vecSetLocalForm
  | ghostRestoreLocalForm
  | vecDestroy
  | vecDuplicated
  | vecCreated
deriving DecidableEq, Repr

/-- Which backend calls are collective (must be issued by every process
sharing the vector): the two-phase assembly, the two-phase ghost update,
creation/duplication/destruction, and `VecSet` on the distributed vector.
Array acquisition/release and all local-form operations are purely local. -/
def Event.collective : Event → Bool
  | .assemblyBegin => true
  | .assemblyEnd => true
  | .ghostUpdateBegin _ _ => true
  | .ghostUpdateEnd _ _ => true
  | .vecSetOwned => true
  | .vecDestroy => true
  | .vecDuplicated => true
  | .vecCreated => true
  | _ => false

namespace PetscVector

/-- Modelled from the spec: the body of `PetscVector::_restore_array` lives in
`petsc_vector.C`, which is not among the sources.  Per the spec's ArrayCache
`release()`, it returns the backend array (and the local form, if any) to the
backend and clears the presence flag; the cached handles become invalid. -/
def restore_array (v : PetscVector) : PetscVector × List Event :=
  if v.array_is_present then
    ({ v with
        array_is_present := false
        values := none
        read_only_values := none
        local_form := none },
     if v.type = .GHOSTED then [.restoreArrayCache, .restoreLocalFormCache]
     else [.restoreArrayCache])
  else (v, [])

/-- Modelled from the spec: the body of `PetscVector::_get_array` lives in
`petsc_vector.C`, which is not among the sources.  Per the spec's ArrayCache
`acquire(readOnly)`, if no view is present it fetches the backend array (and,
for Ghosted storage, the local form), records first/last/local size and marks
presence; if a view is already present it is a no-op. -/
def get_array_internal (ro : Bool) (v : PetscVector) : PetscVector × List Event :=
  if v.array_is_present then (v, [])
  else
    ({ v with
        array_is_present := true
        first := v.vec.first
        last := v.vec.last
        local_size :=
          v.vec.localSize + (if v.type = .GHOSTED then v.vec.ghosts.length else 0)
        local_form := if v.type = .GHOSTED then some v.vec else none
        read_only_values := if ro then some 0 else v.read_only_values
        values := if ro then v.values else some 0
        values_read_only := ro },
     if v.type = .GHOSTED then [.getLocalFormCache, .getArrayCache ro]
     else [.getArrayCache ro])

/-- `PetscVector::zero` (`petsc_vector.h`, lines 1063-1096): assert the
vector is closed (debug only), restore the array, then zero via `VecSet` on
the distributed vector, or — for Ghosted storage — on the ghosted local form
obtained and returned with `VecGhostGetLocalForm` / `VecGhostRestoreLocalForm`. -/
def zero (dbg : Bool) (v : PetscVector) : Except VErr (PetscVector × List Event) :=
  if dbg ∧ v.is_closed = false then .error .assertFail
  else
    let r := v.restore_array
    if r.1.type ≠ .GHOSTED then
      .ok (r.1, r.2 ++ [.vecSetOwned])
    else
      .ok (r.1, r.2 ++ [.ghostGetLocalForm, .vecSetLocalForm, .ghostRestoreLocalForm])

/-- `PetscVector::close` (`petsc_vector.h`, lines 1011-1035): restore the
array, run `VecAssemblyBegin`/`VecAssemblyEnd`, then — exactly when the type
is GHOSTED — `VecGhostUpdateBegin`/`VecGhostUpdateEnd` with `INSERT_VALUES`
and `SCATTER_FORWARD`; finally set `_is_closed = true`. -/
def close (v : PetscVector) : PetscVector × List Event :=
  let r := v.restore_array
  let tr := r.2 ++ [.assemblyBegin, .assemblyEnd] ++
    (if r.1.type = .GHOSTED then
      [.ghostUpdateBegin .insertValues .forward,
       .ghostUpdateEnd .insertValues .forward]
    else [])
  ({ r.1 with is_closed := true }, tr)

/-- `PetscVector::clear` (`petsc_vector.h`, lines 1039-1059): restore the
array if initialized, destroy the backend Vec when initialized and owned,
reset the closed/initialized flags and empty the ghost map. -/
def clear (v : PetscVector) : PetscVector × List Event :=
  let r := if v.is_initialized then v.restore_array else (v, [])
  let r2 :=
    if v.is_initialized ∧ v.destroy_vec_on_exit then
      ({ r.1 with vec := nullVec }, r.2 ++ [.vecDestroy])
    else r
  ({ r2.1 with
      is_closed := false
      is_initialized := false
      global_to_local_map := [] }, r2.2)

/-- The storage-type resolution of `PetscVector::init` (`petsc_vector.h`,
lines 847-855): AUTOMATIC resolves to SERIAL when `n == n_local` and to
PARALLEL otherwise; any explicitly requested type is kept. -/
def resolve_type (pt : ParallelType) (n nl : Nat) : ParallelType :=
  if pt = .AUTOMATIC then (if n = nl then .SERIAL else .PARALLEL) else pt

/-- `PetscVector::init(n, n_local, fast, ptype)` (`petsc_vector.h`, lines
829-895): clear if initialized; resolve the type (`resolve_type`); assert
(debug) that the resolved type is a consistent SERIAL or PARALLEL; create
the backend Vec (the backend's choice of parallel ownership start is the
parameter `f`); any other resolved type is an unconditional
`libmesh_error_msg`.  Marks initialized and closed, then zeroes unless
`fast`. -/
def init (dbg : Bool) (n nl : Nat) (fast : Bool) (pt : ParallelType)
    (f : Nat) (v : PetscVector) : Except VErr (PetscVector × List Event) :=
  let c := if v.is_initialized then v.clear else (v, [])
  let ty : ParallelType := PetscVector.resolve_type pt n nl
  if dbg ∧ ¬ ((ty = .SERIAL ∧ n = nl) ∨ ty = .PARALLEL) then .error .assertFail
  else if ty = .SERIAL then
    let v1 := { c.1 with
        type := ty
        vec := VecCreateSeq n
        is_initialized := true
        is_closed := true }
    if fast then .ok (v1, c.2 ++ [.vecCreated])
    else
      match v1.zero dbg with
      | .ok z => .ok (z.1, c.2 ++ [.vecCreated] ++ z.2)
      | .error e => .error e
  else if ty = .PARALLEL then
    if dbg ∧ ¬ (nl ≤ n) then .error .assertFail
    else
      let v1 := { c.1 with
          type := ty
          vec := VecCreateMPI f nl n
          is_initialized := true
          is_closed := true }
      if fast then .ok (v1, c.2 ++ [.vecCreated])
      else
        match v1.zero dbg with
        | .ok z => .ok (z.1, c.2 ++ [.vecCreated] ++ z.2)
        | .error e => .error e
  else .error .unsupportedType

/-- `PetscVector::init(n, n_local, ghost, fast, ptype)` (`petsc_vector.h`,
lines 910-968): clear if initialized; assert (debug) that the requested type
is AUTOMATIC or GHOSTED; set the type to GHOSTED unconditionally; build the
global-to-local ghost map by inserting the i-th ghost index with offset `i`,
in input order; create the ghosted backend Vec; mark initialized and closed;
zero unless `fast`. -/
def init_ghosted (dbg : Bool) (n nl : Nat) (ghost : List Nat) (fast : Bool)
    (pt : ParallelType) (f : Nat) (v : PetscVector) :
    Except VErr (PetscVector × List Event) :=
  let c := if v.is_initialized then v.clear else (v, [])
  if dbg ∧ ¬ (pt = .AUTOMATIC ∨ pt = .GHOSTED) then .error .assertFail
  else
    let v1 := { c.1 with
        type := .GHOSTED
        global_to_local_map := buildGhostMapAux c.1.global_to_local_map 0 ghost
        vec := VecCreateGhost f nl n ghost
        is_initialized := true
        is_closed := true }
    if fast then .ok (v1, c.2 ++ [.vecCreated])
    else
      match v1.zero dbg with
      | .ok z => .ok (z.1, c.2 ++ [.vecCreated] ++ z.2)
      | .error e => .error e

/-- `PetscVector::init(other, fast)` (`petsc_vector.h`, lines 972-1007):
clear if initialized; restore the other vector's array (its own state change
is not tracked here); copy the other's ghost map and type; mark this vector
initialized and closed; duplicate the backend Vec; zero unless `fast`. -/
def init_from (dbg : Bool) (other : PetscVector) (fast : Bool)
    (v : PetscVector) : Except VErr (PetscVector × List Event) :=
  let c := if v.is_initialized then v.clear else (v, [])
  let o := if other.is_initialized then other.restore_array.1 else other
  let v1 := { c.1 with
      global_to_local_map := o.global_to_local_map
      is_closed := true
      is_initialized := true
      type := o.type
      vec := VecDuplicate o.vec }
  if fast then .ok (v1, c.2 ++ [.vecDuplicated])
  else
    match v1.zero dbg with
    | .ok z => .ok (z.1, c.2 ++ [.vecDuplicated] ++ z.2)
    | .error e => .error e

/-- `PetscVector::size` (`petsc_vector.h`, lines 1123-1139): a
`libmesh_assert(this->initialized())` that only exists in debug builds,
followed by an explicit `return 0` for uninitialized vectors, else the
backend global size via `VecGetSize`. -/
def size (dbg : Bool) (v : PetscVector) : Except VErr Nat :=
  if dbg ∧ v.is_initialized = false then .error .assertFail
  else if v.is_initialized = false then .ok 0
  else .ok v.vec.globalSize

/-- `PetscVector::map_global_to_local_index` (`petsc_vector.h`, lines
1208-1264): assert initialized (debug); take the ownership range from the
cached `_first`/`_last` when the array is present, else from
`VecGetOwnershipRange`; owned indices map to `i - first`; other indices are
looked up in the ghost map and map to `found + last - first`; a missing key
raises the diagnostic (offending index, ownership range, ghost keys) in
debug builds and is undefined behavior in release builds. -/
def map_global_to_local_index (dbg : Bool) (v : PetscVector) (i : Nat) :
    Except VErr Nat :=
  if dbg ∧ v.is_initialized = false then .error .assertFail
  else
    let fl : Nat × Nat :=
      if v.array_is_present then (v.first, v.last) else (v.vec.first, v.vec.last)
    if fl.1 ≤ i ∧ i < fl.2 then .ok (i - fl.1)
    else
      match gmapFind v.global_to_local_map i with
      | some k => .ok (k + fl.2 - fl.1)
      | none =>
          if dbg then .error (.indexErr i fl.1 fl.2 (gmapKeys v.global_to_local_map))
          else .error .undefBehavior

/-- `PetscVector::swap` (`petsc_vector.h`, lines 1384-1407).  The base-class
part (modelled from the spec: `NumericVector::swap` is not among the sources)
exchanges the closed/initialized flags and the type; the derived part
exchanges `_vec`, `_destroy_vec_on_exit`, `_global_to_local_map`,
`_array_is_present`, `_local_form` and `_values` — and nothing else. -/
def swap (a b : PetscVector) : PetscVector × PetscVector :=
  ({ a with
      is_closed := b.is_closed
      is_initialized := b.is_initialized
      type := b.type
      vec := b.vec
      destroy_vec_on_exit := b.destroy_vec_on_exit
      global_to_local_map := b.global_to_local_map
      array_is_present := b.array_is_present
      local_form := b.local_form
      values := b.values },
   { b with
      is_closed := a.is_closed
      is_initialized := a.is_initialized
      type := a.type
      vec := a.vec
      destroy_vec_on_exit := a.destroy_vec_on_exit
      global_to_local_map := a.global_to_local_map
      array_is_present := a.array_is_present
      local_form := a.local_form
      values := a.values })

/-- `PetscVector::get_array` / `get_array_read` (`petsc_vector.h`, lines
1311-1330): set the manually-retrieved marker, then acquire the view. -/
def get_array (ro : Bool) (v : PetscVector) : PetscVector × List Event :=
  get_array_internal ro { v with values_manually_retrieved := true }

/-- `PetscVector::restore_array` (`petsc_vector.h`, lines 1332-1340): clear
the manually-retrieved marker, then restore the view. -/
def restore_array_manual (v : PetscVector) : PetscVector × List Event :=
  restore_array { v with values_manually_retrieved := false }

end PetscVector

/-- Inventory of the modelled single-instance operations, used to state
properties of the form "under any sequence of operations". -/
inductive VOp
  | opInit (n nl : Nat) (fast : Bool) (pt : ParallelType) (f : Nat)
  | opInitGhosted (n nl : Nat) (ghost : List Nat) (fast : Bool)
      (pt : ParallelType) (f : Nat)
  | opInitFrom (other : PetscVector) (fast : Bool)
  | opClose
  | opZero
  | opClear
  | opRestoreArray
  | opGetArray (ro : Bool)
  | opSize
deriving DecidableEq, Repr

/-- Run one operation, keeping only the successor state. -/
def applyOp (dbg : Bool) : VOp → PetscVector → Except VErr PetscVector
  | .opInit n nl fast pt f, v => (v.init dbg n nl fast pt f).map Prod.fst
  | .opInitGhosted n nl gl fast pt f, v =>
      (v.init_ghosted dbg n nl gl fast pt f).map Prod.fst
  | .opInitFrom other fast, v =>
      (PetscVector.init_from dbg other fast v).map Prod.fst
  | .opClose, v => .ok v.close.1
  | .opZero, v => (v.zero dbg).map Prod.fst
  | .opClear, v => .ok v.clear.1
  | .opRestoreArray, v => .ok v.restore_array_manual.1
  | .opGetArray ro, v => .ok (v.get_array ro).1
  | .opSize, v => (v.size dbg).map fun _ => v

/-- Run a sequence of operations on one instance, stopping at the first
error. -/
def runOps (dbg : Bool) : List VOp → PetscVector → Except VErr PetscVector
  | [], v => .ok v
  | op :: rest, v =>
      match applyOp dbg op v with
      | .ok w => runOps dbg rest w
      | .error e => .error e

/-- A freshly dummy-constructed vector, used in concrete instantiations. -/
def freshV : PetscVector := mkDummy ParallelType.AUTOMATIC

/-- Extract the payload of a successful operation (the fallback branch is
never reached in the concrete instantiations below). -/
def okOrSelf (v : PetscVector) (e : Except VErr (PetscVector × List Event)) :
    PetscVector × List Event :=
  match e with
  | .ok p => p
  | .error _ => (v, [])

/-- Extract the final state of a successful operation sequence. -/
def runOpsOr (dbg : Bool) (ops : List VOp) (v : PetscVector) : PetscVector :=
  match runOps dbg ops v with
  | .ok w => w
  | .error _ => v

/-- Concrete instantiation data: a plain serial init on a fresh vector. -/
def c1r1 : PetscVector × List Event :=
  okOrSelf freshV (freshV.init false 3 3 false .AUTOMATIC 0)

/-- Concrete instantiation data: a ghosted init on a fresh vector. -/
def c1r2 : PetscVector × List Event :=
  okOrSelf freshV (freshV.init_ghosted false 4 2 [3] false .GHOSTED 0)

/-- Concrete instantiation data: an init from the vector of `c1r1`. -/
def c1r3 : PetscVector × List Event :=
  okOrSelf freshV (PetscVector.init_from false c1r1.1 true freshV)

/-- Concrete instantiation data: ghosted vector over `[0,6)` owning `[2,4)`
with ghost list `[0, 5]`. -/
def c2res : PetscVector × List Event :=
  okOrSelf freshV (freshV.init_ghosted false 6 2 [0, 5] false .GHOSTED 2)

/-- Concrete operation sequence for the ownership-flag instantiation. -/
def c3ops : List VOp :=
  [.opInit 3 3 false .AUTOMATIC 0, .opGetArray true, .opRestoreArray,
   .opClose, .opZero, .opSize, .opClear,
   .opInitGhosted 4 2 [3] false .GHOSTED 0, .opClose]

/-- Concrete instantiation data: an AUTOMATIC init with distinct local and
global sizes. -/
def c5r1 : PetscVector × List Event :=
  okOrSelf freshV (freshV.init false 6 2 false .AUTOMATIC 1)

/-- Concrete instantiation data: an explicitly GHOSTED ghost-list init. -/
def c5r2 : PetscVector × List Event :=
  okOrSelf freshV (freshV.init_ghosted false 6 2 [0] false .GHOSTED 2)

/-- Concrete instantiation data: a closed ghosted vector for the zero
protocol. -/
def c6v : PetscVector :=
  (okOrSelf freshV (freshV.init_ghosted false 4 2 [3] false .GHOSTED 0)).1

/-- Concrete instantiation data: a ghosted vector whose ghost list contains
the index 3 twice. -/
def c7res : PetscVector × List Event :=
  okOrSelf freshV (freshV.init_ghosted false 4 2 [3, 3] false .GHOSTED 0)

/-! ### Ghost-map lemmas -/

theorem gmapFind_insert_self (m : GMap) (k v : Nat) :
    gmapFind (gmapInsert m k v) k = some v := by
  induction m with
  | nil => simp [gmapInsert, gmapFind]
  | cons p rest ih =>
      obtain ⟨k0, v0⟩ := p
      by_cases h : k0 = k
      · simp [gmapInsert, h, gmapFind]
      · simp [gmapInsert, h, gmapFind, ih]

theorem gmapFind_insert_ne (m : GMap) (k0 v k : Nat) (h : k0 ≠ k) :
    gmapFind (gmapInsert m k0 v) k = gmapFind m k := by
  induction m with
  | nil => simp [gmapInsert, gmapFind, h]
  | cons p rest ih =>
      obtain ⟨k1, v1⟩ := p
      by_cases h1 : k1 = k0
      · subst h1
        simp [gmapInsert, gmapFind, h, fun hh : k1 = k => h (hh ▸ rfl)]
      · simp [gmapInsert, h1, gmapFind, ih]

theorem buildGhostMapAux_find_not_mem (rest : List Nat) :
    ∀ (m : GMap) (i g : Nat), g ∉ rest →
      gmapFind (buildGhostMapAux m i rest) g = gmapFind m g := by
  induction rest with
  | nil => intro m i g _; rfl
  | cons a t ih =>
      intro m i g hg
      have hga : a ≠ g := by
        intro hh
        exact hg (hh ▸ List.mem_cons_self a t)
      have hgt : g ∉ t := fun hh => hg (List.mem_cons_of_mem a hh)
      show gmapFind (buildGhostMapAux (gmapInsert m a i) (i + 1) t) g = gmapFind m g
      rw [ih (gmapInsert m a i) (i + 1) g hgt, gmapFind_insert_ne m a i g hga]

theorem buildGhostMapAux_find_last (pre : List Nat) :
    ∀ (post : List Nat) (m : GMap) (i g : Nat), g ∉ post →
      gmapFind (buildGhostMapAux m i (pre ++ g :: post)) g = some (i + pre.length) := by
  induction pre with
  | nil =>
      intro post m i g hp
      show gmapFind (buildGhostMapAux (gmapInsert m g i) (i + 1) post) g = _
      rw [buildGhostMapAux_find_not_mem post (gmapInsert m g i) (i + 1) g hp,
        gmapFind_insert_self]
      simp
  | cons a t ih =>
      intro post m i g hp
      show gmapFind (buildGhostMapAux (gmapInsert m a i) (i + 1) (t ++ g :: post)) g
        = some (i + (a :: t).length)
      rw [ih post (gmapInsert m a i) (i + 1) g hp]
      congr 1
      simp only [List.length_cons]
      omega

theorem list_getElem?_decomp (G : List Nat) :
    ∀ (k g : Nat), G[k]? = some g →
      ∃ pre post, G = pre ++ g :: post ∧ pre.length = k := by
  induction G with
  | nil => intro k g h; simp at h
  | cons a t ih =>
      intro k g h
      match k with
      | 0 =>
          simp only [List.getElem?_cons_zero, Option.some.injEq] at h
          exact ⟨[], t, by simp [h], rfl⟩
      | k + 1 =>
          rw [List.getElem?_cons_succ] at h
          obtain ⟨pre, post, he, hl⟩ := ih k g h
          exact ⟨a :: pre, post, by simp [he], by simp [hl]⟩

/-! ### Field-preservation lemmas for the operations -/

theorem restore_array_fields (v : PetscVector) :
    v.restore_array.1.is_closed = v.is_closed ∧
    v.restore_array.1.is_initialized = v.is_initialized ∧
    v.restore_array.1.type = v.type ∧
    v.restore_array.1.vec = v.vec ∧
    v.restore_array.1.global_to_local_map = v.global_to_local_map ∧
    v.restore_array.1.destroy_vec_on_exit = v.destroy_vec_on_exit ∧
    v.restore_array.1.array_is_present = false := by
  unfold PetscVector.restore_array
  split <;> simp_all

theorem restore_array_events_local (v : PetscVector) :
    ∀ e ∈ v.restore_array.2, e.collective = false := by
  unfold PetscVector.restore_array
  split
  · split
    · intro e he
      simp only [List.mem_cons, List.not_mem_nil, or_false] at he
      rcases he with h | h <;> simp [h, Event.collective]
    · intro e he
      simp only [List.mem_cons, List.not_mem_nil, or_false] at he
      simp [he, Event.collective]
  · intro e he; simp at he

theorem restore_array_events_nil_iff (v : PetscVector) :
    v.restore_array.2 = [] ↔ v.array_is_present = false := by
  unfold PetscVector.restore_array
  split <;> rename_i hc
  · constructor
    · intro h
      exfalso
      revert h
      split <;> simp
    · intro h; rw [hc] at h; cases h
  · simpa using hc

theorem zero_ok_fields (dbg : Bool) (v w : PetscVector) (t : List Event)
    (h : v.zero dbg = .ok (w, t)) :
    w.is_closed = v.is_closed ∧
    w.is_initialized = v.is_initialized ∧
    w.type = v.type ∧
    w.vec = v.vec ∧
    w.global_to_local_map = v.global_to_local_map ∧
    w.destroy_vec_on_exit = v.destroy_vec_on_exit ∧
    w.array_is_present = false := by
  simp only [PetscVector.zero] at h
  split at h
  · cases h
  · split at h <;>
    · simp only [Except.ok.injEq, Prod.mk.injEq] at h
      obtain ⟨hw, _⟩ := h
      subst hw
      exact restore_array_fields v

theorem clear_fields (v : PetscVector) :
    v.clear.1.destroy_vec_on_exit = v.destroy_vec_on_exit ∧
    v.clear.1.is_closed = false ∧
    v.clear.1.is_initialized = false ∧
    v.clear.1.global_to_local_map = [] := by
  unfold PetscVector.clear
  split <;> split <;> simp_all [restore_array_fields v]

theorem clear_branch_fields (v : PetscVector) :
    (if v.is_initialized then v.clear else (v, [])).1.destroy_vec_on_exit
        = v.destroy_vec_on_exit ∧
    (if v.is_initialized then v.clear else (v, [])).1.global_to_local_map
        = (if v.is_initialized then [] else v.global_to_local_map) := by
  split
  · exact ⟨(clear_fields v).1, (clear_fields v).2.2.2⟩
  · exact ⟨rfl, rfl⟩

theorem init_ok_fields (dbg : Bool) (n nl : Nat) (fast : Bool)
    (pt : ParallelType) (f : Nat) (v w : PetscVector) (t : List Event)
    (h : v.init dbg n nl fast pt f = .ok (w, t)) :
    w.is_initialized = true ∧ w.is_closed = true ∧
    w.destroy_vec_on_exit = v.destroy_vec_on_exit ∧
    w.type = PetscVector.resolve_type pt n nl := by
  simp only [PetscVector.init] at h
  cases hty : PetscVector.resolve_type pt n nl with
  | AUTOMATIC =>
      rw [hty] at h
      simp only [reduceCtorEq, false_and, or_self, not_false_eq_true, and_true,
        if_false, ite_false] at h
      split at h <;> cases h
  | GHOSTED =>
      rw [hty] at h
      simp only [reduceCtorEq, false_and, or_self, not_false_eq_true, and_true,
        if_false, ite_false] at h
      split at h <;> cases h
  | SERIAL =>
      rw [hty] at h
      simp only [reduceCtorEq, eq_self_iff_true, true_and, or_false,
        if_true, ite_true] at h
      split at h
      · cases h
      · split at h
        · simp only [Except.ok.injEq, Prod.mk.injEq] at h
          obtain ⟨hw, _⟩ := h
          subst hw
          exact ⟨rfl, rfl, (clear_branch_fields v).1, rfl⟩
        · split at h
          · rename_i z hz
            simp only [Except.ok.injEq, Prod.mk.injEq] at h
            obtain ⟨hw, _⟩ := h
            subst hw
            obtain ⟨hc, hi, hty2, _, _, hd, _⟩ := zero_ok_fields dbg _ _ _ hz
            exact ⟨hi.trans rfl, hc.trans rfl,
              hd.trans (clear_branch_fields v).1, hty2.trans rfl⟩
          · cases h
  | PARALLEL =>
      rw [hty] at h
      simp only [reduceCtorEq, eq_self_iff_true, and_false, false_and,
        false_or, or_true, if_true, ite_true, if_false, ite_false,
        not_false_eq_true, and_true] at h
      split at h
      · cases h
      · split at h
        · cases h
        · split at h
          · simp only [Except.ok.injEq, Prod.mk.injEq] at h
            obtain ⟨hw, _⟩ := h
            subst hw
            exact ⟨rfl, rfl, (clear_branch_fields v).1, rfl⟩
          · split at h
            · rename_i z hz
              simp only [Except.ok.injEq, Prod.mk.injEq] at h
              obtain ⟨hw, _⟩ := h
              subst hw
              obtain ⟨hc, hi, hty2, _, _, hd, _⟩ := zero_ok_fields dbg _ _ _ hz
              exact ⟨hi.trans rfl, hc.trans rfl,
                hd.trans (clear_branch_fields v).1, hty2.trans rfl⟩
            · cases h

theorem init_ghosted_ok_fields (dbg : Bool) (n nl : Nat) (G : List Nat)
    (fast : Bool) (pt : ParallelType) (f : Nat) (v w : PetscVector)
    (t : List Event)
    (h : v.init_ghosted dbg n nl G fast pt f = .ok (w, t)) :
    w.is_initialized = true ∧ w.is_closed = true ∧
    w.destroy_vec_on_exit = v.destroy_vec_on_exit ∧
    w.type = .GHOSTED := by
  simp only [PetscVector.init_ghosted] at h
  split at h
  · cases h
  · split at h
    · simp only [Except.ok.injEq, Prod.mk.injEq] at h
      obtain ⟨hw, _⟩ := h
      subst hw
      exact ⟨rfl, rfl, (clear_branch_fields v).1, rfl⟩
    · split at h
      · rename_i z hz
        simp only [Except.ok.injEq, Prod.mk.injEq] at h
        obtain ⟨hw, _⟩ := h
        subst hw
        obtain ⟨hc, hi, hty2, _, _, hd, _⟩ := zero_ok_fields dbg _ _ _ hz
        exact ⟨hi.trans rfl, hc.trans rfl,
          hd.trans (clear_branch_fields v).1, hty2.trans rfl⟩
      · cases h

theorem init_from_ok_fields (dbg : Bool) (other : PetscVector) (fast : Bool)
    (v w : PetscVector) (t : List Event)
    (h : PetscVector.init_from dbg other fast v = .ok (w, t)) :
    w.is_initialized = true ∧ w.is_closed = true ∧
    w.destroy_vec_on_exit = v.destroy_vec_on_exit := by
  simp only [PetscVector.init_from] at h
  split at h
  · simp only [Except.ok.injEq, Prod.mk.injEq] at h
    obtain ⟨hw, _⟩ := h
    subst hw
    exact ⟨rfl, rfl, (clear_branch_fields v).1⟩
  · split at h
    · rename_i z hz
      simp only [Except.ok.injEq, Prod.mk.injEq] at h
      obtain ⟨hw, _⟩ := h
      subst hw
      obtain ⟨hc, hi, _, _, _, hd, _⟩ := zero_ok_fields dbg _ _ _ hz
      exact ⟨hi.trans rfl, hc.trans rfl, hd.trans (clear_branch_fields v).1⟩
    · cases h

/-- `zero` on a closed vector with no cached array is a pure trace: the
state is unchanged. -/
theorem zero_closed_not_present (dbg : Bool) (v : PetscVector)
    (hc : v.is_closed = true) (ha : v.array_is_present = false) :
    v.zero dbg = .ok (v,
      if v.type = .GHOSTED then
        [Event.ghostGetLocalForm, Event.vecSetLocalForm, Event.ghostRestoreLocalForm]
      else [Event.vecSetOwned]) := by
  simp only [PetscVector.zero, PetscVector.restore_array, hc, ha]
  simp only [Bool.true_eq_false, Bool.false_eq_true, and_false, if_false,
    ite_false, if_neg, reduceIte, List.nil_append]
  by_cases ht : v.type = .GHOSTED <;> simp [ht]

/-- The exact state produced by the ghosted init on a vector that is not yet
initialized and has no cached array. -/
theorem init_ghosted_ok_state (dbg : Bool) (n nl : Nat) (G : List Nat)
    (fast : Bool) (pt : ParallelType) (f : Nat) (v w : PetscVector)
    (t : List Event)
    (h0 : v.is_initialized = false) (ha : v.array_is_present = false)
    (h : v.init_ghosted dbg n nl G fast pt f = .ok (w, t)) :
    w = { v with
        type := .GHOSTED
        global_to_local_map := buildGhostMapAux v.global_to_local_map 0 G
        vec := VecCreateGhost f nl n G
        is_initialized := true
        is_closed := true } := by
  simp only [PetscVector.init_ghosted, h0, Bool.false_eq_true, if_false,
    ite_false] at h
  split at h
  · cases h
  · split at h
    · simp only [Except.ok.injEq, Prod.mk.injEq] at h
      exact h.1.symm
    · rw [zero_closed_not_present dbg] at h
      · simp only [Except.ok.injEq, Prod.mk.injEq] at h
        exact h.1.symm
      · rfl
      · exact ha

theorem close_destroy (v : PetscVector) :
    v.close.1.destroy_vec_on_exit = v.destroy_vec_on_exit := by
  exact (restore_array_fields v).2.2.2.2.2.1

theorem get_array_destroy (ro : Bool) (v : PetscVector) :
    (v.get_array ro).1.destroy_vec_on_exit = v.destroy_vec_on_exit := by
  unfold PetscVector.get_array PetscVector.get_array_internal
  split <;> rfl

theorem restore_array_manual_destroy (v : PetscVector) :
    v.restore_array_manual.1.destroy_vec_on_exit = v.destroy_vec_on_exit := by
  exact (restore_array_fields { v with values_manually_retrieved := false }).2.2.2.2.2.1

theorem except_map_fst_ok (e : Except VErr (PetscVector × List Event))
    (w : PetscVector) (h : e.map Prod.fst = .ok w) :
    ∃ t, e = .ok (w, t) := by
  cases e with
  | error x => simp [Except.map] at h
  | ok p =>
      simp only [Except.map, Except.ok.injEq] at h
      exact ⟨p.2, by rw [← h]⟩

theorem applyOp_destroy (dbg : Bool) (op : VOp) (v w : PetscVector)
    (h : applyOp dbg op v = .ok w) :
    w.destroy_vec_on_exit = v.destroy_vec_on_exit := by
  cases op with
  | opInit n nl fast pt f =>
      obtain ⟨t, hi⟩ := except_map_fst_ok _ _ h
      exact (init_ok_fields dbg n nl fast pt f v w t hi).2.2.1
  | opInitGhosted n nl gl fast pt f =>
      obtain ⟨t, hi⟩ := except_map_fst_ok _ _ h
      exact (init_ghosted_ok_fields dbg n nl gl fast pt f v w t hi).2.2.1
  | opInitFrom other fast =>
      obtain ⟨t, hi⟩ := except_map_fst_ok _ _ h
      exact (init_from_ok_fields dbg other fast v w t hi).2.2
  | opClose =>
      obtain rfl := Except.ok.inj h
      exact close_destroy v
  | opZero =>
      obtain ⟨t, hi⟩ := except_map_fst_ok _ _ h
      exact (zero_ok_fields dbg v w t hi).2.2.2.2.2.1
  | opClear =>
      obtain rfl := Except.ok.inj h
      exact (clear_fields v).1
  | opRestoreArray =>
      obtain rfl := Except.ok.inj h
      exact restore_array_manual_destroy v
  | opGetArray ro =>
      obtain rfl := Except.ok.inj h
      exact get_array_destroy ro v
  | opSize =>
      simp only [applyOp] at h
      cases hs : v.size dbg with
      | error e => rw [hs] at h; simp [Except.map] at h
      | ok nv =>
          rw [hs] at h
          simp only [Except.map, Except.ok.injEq] at h
          rw [← h]

theorem runOps_destroy (dbg : Bool) (ops : List VOp) :
    ∀ v w : PetscVector, runOps dbg ops v = .ok w →
      w.destroy_vec_on_exit = v.destroy_vec_on_exit := by
  induction ops with
  | nil =>
      intro v w h
      obtain rfl := Except.ok.inj h
      rfl
  | cons op rest ih =>
      intro v w h
      simp only [runOps] at h
      cases hop : applyOp dbg op v with
      | error e => rw [hop] at h; cases h
      | ok u =>
          rw [hop] at h
          exact (ih u w h).trans (applyOp_destroy dbg op v u hop)

/-! ### Claim theorems -/

/-- C8: for every pair of vectors A and B, executing `swap(A, B)` twice in
succession restores both A and B to their pre-swap observable state (swap is
self-inverse). -/
theorem c8_swap_self_inverse (a b : PetscVector) :
    PetscVector.swap (PetscVector.swap a b).1 (PetscVector.swap a b).2 = (a, b) := by
  cases a
  cases b
  rfl

/-- C9: `swap` exchanges the backend handle (`_vec`), ownership flag
(`_destroy_vec_on_exit`), ghost map, cache-presence flag
(`_array_is_present`), local-form handle and read-write values pointer
(`_values`), but leaves each instance's cached bounds (`_first`, `_last`,
`_local_size`), read-only values pointer, manually-retrieved marker and
read-only-mode marker unswapped — so after a swap with a cached view present,
the cache metadata describes the other instance's storage. -/
theorem c9_swap_frame (a b : PetscVector) :
    ((PetscVector.swap a b).1.vec = b.vec ∧
     (PetscVector.swap a b).1.destroy_vec_on_exit = b.destroy_vec_on_exit ∧
     (PetscVector.swap a b).1.global_to_local_map = b.global_to_local_map ∧
     (PetscVector.swap a b).1.array_is_present = b.array_is_present ∧
     (PetscVector.swap a b).1.local_form = b.local_form ∧
     (PetscVector.swap a b).1.values = b.values) ∧
    ((PetscVector.swap a b).1.first = a.first ∧
     (PetscVector.swap a b).1.last = a.last ∧
     (PetscVector.swap a b).1.local_size = a.local_size ∧
     (PetscVector.swap a b).1.read_only_values = a.read_only_values ∧
     (PetscVector.swap a b).1.values_manually_retrieved = a.values_manually_retrieved ∧
     (PetscVector.swap a b).1.values_read_only = a.values_read_only) ∧
    ((PetscVector.swap a b).2.vec = a.vec ∧
     (PetscVector.swap a b).2.destroy_vec_on_exit = a.destroy_vec_on_exit ∧
     (PetscVector.swap a b).2.global_to_local_map = a.global_to_local_map ∧
     (PetscVector.swap a b).2.array_is_present = a.array_is_present ∧
     (PetscVector.swap a b).2.local_form = a.local_form ∧
     (PetscVector.swap a b).2.values = a.values) ∧
    ((PetscVector.swap a b).2.first = b.first ∧
     (PetscVector.swap a b).2.last = b.last ∧
     (PetscVector.swap a b).2.local_size = b.local_size ∧
     (PetscVector.swap a b).2.read_only_values = b.read_only_values ∧
     (PetscVector.swap a b).2.values_manually_retrieved = b.values_manually_retrieved ∧
     (PetscVector.swap a b).2.values_read_only = b.values_read_only) :=
  ⟨⟨rfl, rfl, rfl, rfl, rfl, rfl⟩, ⟨rfl, rfl, rfl, rfl, rfl, rfl⟩,
   ⟨rfl, rfl, rfl, rfl, rfl, rfl⟩, ⟨rfl, rfl, rfl, rfl, rfl, rfl⟩⟩

/-- C10: `size()` on an uninitialized vector fails the assertion in debug
builds but returns 0 in optimized builds. -/
theorem c10_size_uninitialized_contract (v : PetscVector)
    (h : v.is_initialized = false) :
    v.size true = Except.error VErr.assertFail ∧
    v.size false = Except.ok 0 := by
  simp [PetscVector.size, h]

/-- C10 witness: the contract evaluated on a freshly constructed vector. -/
theorem c10_size_uninitialized_contract_witness :
    freshV.is_initialized = false ∧
    (freshV.size true = Except.error VErr.assertFail ∧
     freshV.size false = Except.ok 0) :=
  ⟨rfl, c10_size_uninitialized_contract freshV rfl⟩

/-- C4: `close()` performs, in order, the release of the array cache if
present, the two-phase backend assembly, and — exactly when the storage type
is Ghosted — the two-phase ghost-update exchange with insertion semantics;
afterwards the vector is Closed. -/
theorem c4_close_protocol (v : PetscVector) :
    v.close.2 = v.restore_array.2 ++ [Event.assemblyBegin, Event.assemblyEnd] ++
      (if v.type = ParallelType.GHOSTED then
        [Event.ghostUpdateBegin InsertMode.insertValues ScatterDir.forward,
         Event.ghostUpdateEnd InsertMode.insertValues ScatterDir.forward]
      else []) ∧
    (v.restore_array.2 = [] ↔ v.array_is_present = false) ∧
    v.close.1.is_closed = true ∧
    v.close.1.array_is_present = false := by
  refine ⟨?_, restore_array_events_nil_iff v, rfl,
    (restore_array_fields v).2.2.2.2.2.2⟩
  simp only [PetscVector.close]
  rw [(restore_array_fields v).2.2.1]

/-- C3 (counterexample): the ownership flag is not invariant under every
operation on an instance: swapping an owning vector with a wrapping vector
changes both flags. -/
theorem c3_ownership_flag_counterexample :
    (mkDummy ParallelType.AUTOMATIC).destroy_vec_on_exit = true ∧
    (mkWrap (VecCreateMPI 0 2 4)).destroy_vec_on_exit = false ∧
    (PetscVector.swap (mkDummy ParallelType.AUTOMATIC)
        (mkWrap (VecCreateMPI 0 2 4))).1.destroy_vec_on_exit = false ∧
    (PetscVector.swap (mkDummy ParallelType.AUTOMATIC)
        (mkWrap (VecCreateMPI 0 2 4))).2.destroy_vec_on_exit = true :=
  ⟨rfl, rfl, rfl, rfl⟩

/-- C3 (amended): the ownership flag never changes under any sequence of the
modelled non-swap operations; `swap` is the sole exception and exchanges the
two instances' flags. -/
theorem c3_ownership_flag_swap_only (dbg : Bool) (ops : List VOp)
    (v w : PetscVector) (h : runOps dbg ops v = .ok w) :
    w.destroy_vec_on_exit = v.destroy_vec_on_exit ∧
    (∀ a b : PetscVector,
      (PetscVector.swap a b).1.destroy_vec_on_exit = b.destroy_vec_on_exit ∧
      (PetscVector.swap a b).2.destroy_vec_on_exit = a.destroy_vec_on_exit) :=
  ⟨runOps_destroy dbg ops v w h, fun _ _ => ⟨rfl, rfl⟩⟩

/-- C3 witness: the amended flag invariant evaluated over a concrete
operation sequence from a fresh vector. -/
theorem c3_ownership_flag_swap_only_witness :
    runOps false c3ops freshV = Except.ok (runOpsOr false c3ops freshV) ∧
    ((runOpsOr false c3ops freshV).destroy_vec_on_exit =
        freshV.destroy_vec_on_exit ∧
     (∀ a b : PetscVector,
        (PetscVector.swap a b).1.destroy_vec_on_exit = b.destroy_vec_on_exit ∧
        (PetscVector.swap a b).2.destroy_vec_on_exit = a.destroy_vec_on_exit)) :=
  ⟨rfl, c3_ownership_flag_swap_only false c3ops freshV
    (runOpsOr false c3ops freshV) rfl⟩

/-- C1 (counterexample): a successful plain `init(3, 3)` on a freshly
constructed vector leaves `_is_closed = true`: the vector enters the Closed
lifecycle state, not Open. -/
theorem c1_init_enters_closed_counterexample :
    (freshV.init false 3 3 false ParallelType.AUTOMATIC 0).map
      (fun p => p.1.is_closed) = Except.ok true := rfl

/-- C1 (amended): after any successful init call (plain, ghosted, or from
another vector) the vector is initialized and in the Closed lifecycle state
(the implementation marks freshly initialized storage as already
assembled). -/
theorem c1_init_initialized_and_closed
    (dbg1 : Bool) (n1 nl1 : Nat) (fast1 : Bool) (pt1 : ParallelType) (f1 : Nat)
    (u1 v1 : PetscVector) (t1 : List Event)
    (dbg2 : Bool) (n2 nl2 : Nat) (G : List Nat) (fast2 : Bool)
    (pt2 : ParallelType) (f2 : Nat) (u2 v2 : PetscVector) (t2 : List Event)
    (dbg3 : Bool) (other : PetscVector) (fast3 : Bool)
    (u3 v3 : PetscVector) (t3 : List Event)
    (h1 : u1.init dbg1 n1 nl1 fast1 pt1 f1 = .ok (v1, t1))
    (h2 : u2.init_ghosted dbg2 n2 nl2 G fast2 pt2 f2 = .ok (v2, t2))
    (h3 : PetscVector.init_from dbg3 other fast3 u3 = .ok (v3, t3)) :
    (v1.is_initialized = true ∧ v1.is_closed = true) ∧
    (v2.is_initialized = true ∧ v2.is_closed = true) ∧
    (v3.is_initialized = true ∧ v3.is_closed = true) := by
  obtain ⟨a1, b1, -, -⟩ := init_ok_fields dbg1 n1 nl1 fast1 pt1 f1 u1 v1 t1 h1
  obtain ⟨a2, b2, -, -⟩ :=
    init_ghosted_ok_fields dbg2 n2 nl2 G fast2 pt2 f2 u2 v2 t2 h2
  obtain ⟨a3, b3, -⟩ := init_from_ok_fields dbg3 other fast3 u3 v3 t3 h3
  exact ⟨⟨a1, b1⟩, ⟨a2, b2⟩, ⟨a3, b3⟩⟩

/-- C1 witness: the three init variants evaluated at concrete inputs. -/
theorem c1_init_initialized_and_closed_witness :
    freshV.init false 3 3 false ParallelType.AUTOMATIC 0
        = Except.ok (c1r1.1, c1r1.2) ∧
    freshV.init_ghosted false 4 2 [3] false ParallelType.GHOSTED 0
        = Except.ok (c1r2.1, c1r2.2) ∧
    PetscVector.init_from false c1r1.1 true freshV
        = Except.ok (c1r3.1, c1r3.2) ∧
    ((c1r1.1.is_initialized = true ∧ c1r1.1.is_closed = true) ∧
     (c1r2.1.is_initialized = true ∧ c1r2.1.is_closed = true) ∧
     (c1r3.1.is_initialized = true ∧ c1r3.1.is_closed = true)) :=
  ⟨rfl, rfl, rfl,
    c1_init_initialized_and_closed
      false 3 3 false ParallelType.AUTOMATIC 0 freshV c1r1.1 c1r1.2
      false 4 2 [3] false ParallelType.GHOSTED 0 freshV c1r2.1 c1r2.2
      false c1r1.1 true freshV c1r3.1 c1r3.2 rfl rfl rfl⟩

/-- C5: with AUTOMATIC the resulting storage type is SERIAL when the global
and local sizes coincide and PARALLEL otherwise; an explicit GHOSTED request
through the ghost-list init yields type GHOSTED regardless of the sizes,
while the plain init rejects an explicit GHOSTED request. -/
theorem c5_type_resolution
    (dbg1 : Bool) (n1 nl1 : Nat) (fast1 : Bool) (f1 : Nat)
    (u1 v1 : PetscVector) (t1 : List Event)
    (dbg2 : Bool) (n2 nl2 : Nat) (G : List Nat) (fast2 : Bool) (f2 : Nat)
    (u2 v2 : PetscVector) (t2 : List Event)
    (h1 : u1.init dbg1 n1 nl1 fast1 .AUTOMATIC f1 = .ok (v1, t1))
    (h2 : u2.init_ghosted dbg2 n2 nl2 G fast2 .GHOSTED f2 = .ok (v2, t2)) :
    v1.type = (if n1 = nl1 then ParallelType.SERIAL else ParallelType.PARALLEL) ∧
    v2.type = ParallelType.GHOSTED ∧
    (∀ (dbg3 : Bool) (n3 nl3 : Nat) (fast3 : Bool) (f3 : Nat)
        (u3 : PetscVector),
      u3.init dbg3 n3 nl3 fast3 ParallelType.GHOSTED f3 =
        .error (if dbg3 then VErr.assertFail else VErr.unsupportedType)) := by
  refine ⟨?_, (init_ghosted_ok_fields dbg2 n2 nl2 G fast2 .GHOSTED f2
      u2 v2 t2 h2).2.2.2, ?_⟩
  · have := (init_ok_fields dbg1 n1 nl1 fast1 .AUTOMATIC f1 u1 v1 t1 h1).2.2.2
    simpa [PetscVector.resolve_type] using this
  · intro dbg3 n3 nl3 fast3 f3 u3
    cases dbg3 <;>
      simp [PetscVector.init, PetscVector.resolve_type]

/-- C5 witness: the type-resolution contract evaluated at concrete inputs. -/
theorem c5_type_resolution_witness :
    freshV.init false 6 2 false ParallelType.AUTOMATIC 1
        = Except.ok (c5r1.1, c5r1.2) ∧
    freshV.init_ghosted false 6 2 [0] false ParallelType.GHOSTED 2
        = Except.ok (c5r2.1, c5r2.2) ∧
    (c5r1.1.type =
        (if 6 = 2 then ParallelType.SERIAL else ParallelType.PARALLEL) ∧
     c5r2.1.type = ParallelType.GHOSTED ∧
     (∀ (dbg3 : Bool) (n3 nl3 : Nat) (fast3 : Bool) (f3 : Nat)
         (u3 : PetscVector),
       u3.init dbg3 n3 nl3 fast3 ParallelType.GHOSTED f3 =
         .error (if dbg3 then VErr.assertFail else VErr.unsupportedType))) :=
  ⟨rfl, rfl,
    c5_type_resolution false 6 2 false 1 freshV c5r1.1 c5r1.2
      false 6 2 [0] false 2 freshV c5r2.1 c5r2.2 rfl rfl⟩

/-- C6: under the Closed precondition (checked only by a debug assertion),
`zero()` on a Ghosted vector zeroes the backend local form with purely local
calls (no collective in the emitted trace), and on Serial/Parallel vectors
zeroes the owned entries via the backend; in both cases the vector remains
Closed.  In debug builds an unclosed vector fails the assertion. -/
theorem c6_zero_protocol (dbg : Bool) (v : PetscVector)
    (h : v.is_closed = true) :
    (∃ v2 tr, v.zero dbg = .ok (v2, tr) ∧ v2.is_closed = true ∧
      (v.type = ParallelType.GHOSTED →
        tr = v.restore_array.2 ++
          [Event.ghostGetLocalForm, Event.vecSetLocalForm,
           Event.ghostRestoreLocalForm] ∧
        ∀ e ∈ tr, e.collective = false) ∧
      (v.type ≠ ParallelType.GHOSTED →
        tr = v.restore_array.2 ++ [Event.vecSetOwned])) ∧
    (∀ u : PetscVector, u.is_closed = false →
      u.zero true = .error VErr.assertFail) := by
  constructor
  · have hty := (restore_array_fields v).2.2.1
    by_cases hg : v.type = ParallelType.GHOSTED
    · refine ⟨v.restore_array.1,
        v.restore_array.2 ++ [Event.ghostGetLocalForm, Event.vecSetLocalForm,
          Event.ghostRestoreLocalForm], ?_, ?_, ?_, ?_⟩
      · simp only [PetscVector.zero, h]
        simp [hty, hg]
      · rw [(restore_array_fields v).1]
        exact h
      · intro _
        refine ⟨rfl, ?_⟩
        intro e he
        rw [List.mem_append] at he
        rcases he with he | he
        · exact restore_array_events_local v e he
        · simp only [List.mem_cons, List.not_mem_nil, or_false] at he
          rcases he with rfl | rfl | rfl <;> rfl
      · intro hn
        exact absurd hg hn
    · refine ⟨v.restore_array.1,
        v.restore_array.2 ++ [Event.vecSetOwned], ?_, ?_, ?_, ?_⟩
      · simp only [PetscVector.zero, h]
        simp [hty, hg]
      · rw [(restore_array_fields v).1]
        exact h
      · intro hgg
        exact absurd hgg hg
      · intro _
        rfl
  · intro u hu
    simp [PetscVector.zero, hu]

/-- C6 witness: the zero protocol evaluated on a concrete closed ghosted
vector. -/
theorem c6_zero_protocol_witness :
    c6v.is_closed = true ∧
    ((∃ v2 tr, c6v.zero false = .ok (v2, tr) ∧ v2.is_closed = true ∧
      (c6v.type = ParallelType.GHOSTED →
        tr = c6v.restore_array.2 ++
          [Event.ghostGetLocalForm, Event.vecSetLocalForm,
           Event.ghostRestoreLocalForm] ∧
        ∀ e ∈ tr, e.collective = false) ∧
      (c6v.type ≠ ParallelType.GHOSTED →
        tr = c6v.restore_array.2 ++ [Event.vecSetOwned])) ∧
    (∀ u : PetscVector, u.is_closed = false →
      u.zero true = .error VErr.assertFail)) :=
  ⟨rfl, c6_zero_protocol false c6v rfl⟩

/-- C2: after a ghosted init with ghost list `G` on a fresh vector with
ownership range `[f, f + nl)`: owned indices map to `i - f`; the `k`-th
entry of a duplicate-free ghost list disjoint from the owned range maps to
`nl + k` (input order preserved); and in debug builds any other index raises
the IndexError diagnostic naming the offending index, the ownership range
and the ghost keys. -/
theorem c2_map_global_to_local_contract
    (dbgI dbg : Bool) (n nl : Nat) (G : List Nat) (fast : Bool)
    (pt : ParallelType) (f : Nat) (v0 vg : PetscVector) (tr : List Event)
    (h0 : v0.is_initialized = false) (ha : v0.array_is_present = false)
    (hm : v0.global_to_local_map = [])
    (hinit : v0.init_ghosted dbgI n nl G fast pt f = .ok (vg, tr)) :
    (∀ i, f ≤ i → i < f + nl →
      vg.map_global_to_local_index dbg i = .ok (i - f)) ∧
    (∀ k g, G[k]? = some g → G.Nodup → (g < f ∨ f + nl ≤ g) →
      vg.map_global_to_local_index dbg g = .ok (nl + k)) ∧
    (∀ i, ¬ (f ≤ i ∧ i < f + nl) → i ∉ G →
      vg.map_global_to_local_index true i =
        .error (VErr.indexErr i f (f + nl)
          (gmapKeys (buildGhostMapAux [] 0 G)))) := by
  have hst := init_ghosted_ok_state dbgI n nl G fast pt f v0 vg tr h0 ha hinit
  subst hst
  rw [hm]
  refine ⟨?_, ?_, ?_⟩
  · intro i hi1 hi2
    simp [PetscVector.map_global_to_local_index, VecCreateGhost, ha, hi1, hi2]
  · intro k g hk hnd hout
    obtain ⟨pre, post, hGe, hpl⟩ := list_getElem?_decomp G k g hk
    have hnp : g ∉ post := by
      rw [hGe] at hnd
      exact (List.nodup_cons.mp hnd.of_append_right).1
    have hfind : gmapFind (buildGhostMapAux [] 0 G) g = some k := by
      rw [hGe, buildGhostMapAux_find_last pre post [] 0 g hnp]
      simp [hpl]
    have hno : ¬ (f ≤ g ∧ g < f + nl) := by omega
    have harith : g < f ∨ ¬ g < f + nl := by omega
    simp [PetscVector.map_global_to_local_index, VecCreateGhost, ha, hno,
      hfind]
    omega
  · intro i hni hnG
    have hfind : gmapFind (buildGhostMapAux [] 0 G) i = none :=
      buildGhostMapAux_find_not_mem G [] 0 i hnG
    simp [PetscVector.map_global_to_local_index, VecCreateGhost, ha, hni,
      hfind]

/-- C2 witness: the index-translation contract evaluated on the concrete
ghosted vector of `c2res` (global size 6, owned range `[2,4)`, ghosts
`[0, 5]`). -/
theorem c2_map_global_to_local_contract_witness :
    freshV.is_initialized = false ∧ freshV.array_is_present = false ∧
    freshV.global_to_local_map = [] ∧
    freshV.init_ghosted false 6 2 [0, 5] false ParallelType.GHOSTED 2
        = Except.ok (c2res.1, c2res.2) ∧
    c2res.1.map_global_to_local_index false 3 = Except.ok 1 ∧
    c2res.1.map_global_to_local_index false 0 = Except.ok 2 ∧
    c2res.1.map_global_to_local_index false 5 = Except.ok (2 + 1) ∧
    c2res.1.map_global_to_local_index true 1 =
      Except.error (VErr.indexErr 1 2 (2 + 2)
        (gmapKeys (buildGhostMapAux [] 0 [0, 5]))) := by
  have H := c2_map_global_to_local_contract false false 6 2 [0, 5] false
    ParallelType.GHOSTED 2 freshV c2res.1 c2res.2 rfl rfl rfl rfl
  refine ⟨rfl, rfl, rfl, rfl, ?_, ?_, ?_, ?_⟩
  · exact H.1 3 (by decide) (by decide)
  · exact H.2.1 0 0 rfl (by decide) (by decide)
  · exact H.2.1 1 5 rfl (by decide) (by decide)
  · exact H.2.2 1 (by decide) (by decide)

/-- C7: when the ghost list passed to init contains the same global index g
at positions j and k with j < k (and no later occurrence), the map entry for
g is the one from the later position: lookup returns `n_local + k`. -/
theorem c7_duplicate_ghost_last_wins
    (dbgI dbg : Bool) (n nl : Nat) (G : List Nat) (fast : Bool)
    (pt : ParallelType) (f : Nat) (v0 vg : PetscVector) (tr : List Event)
    (g j k : Nat)
    (h0 : v0.is_initialized = false) (ha : v0.array_is_present = false)
    (hm : v0.global_to_local_map = [])
    (hinit : v0.init_ghosted dbgI n nl G fast pt f = .ok (vg, tr))
    (hj : G[j]? = some g) (hjk : j < k) (hk : G[k]? = some g)
    (hlast : ∀ m, k < m → G[m]? ≠ some g)
    (hout : g < f ∨ f + nl ≤ g) :
    vg.map_global_to_local_index dbg g = .ok (nl + k) := by
  have hst := init_ghosted_ok_state dbgI n nl G fast pt f v0 vg tr h0 ha hinit
  subst hst
  rw [hm]
  obtain ⟨pre, post, hGe, hpl⟩ := list_getElem?_decomp G k g hk
  have hnp : g ∉ post := by
    intro hmem
    obtain ⟨idx, hidx⟩ := List.mem_iff_getElem?.mp hmem
    refine hlast (k + 1 + idx) (by omega) ?_
    rw [hGe, List.getElem?_append_right (by omega)]
    have harith : k + 1 + idx - pre.length = idx + 1 := by omega
    rw [harith, List.getElem?_cons_succ]
    exact hidx
  have hfind : gmapFind (buildGhostMapAux [] 0 G) g = some k := by
    rw [hGe, buildGhostMapAux_find_last pre post [] 0 g hnp]
    simp [hpl]
  have hno : ¬ (f ≤ g ∧ g < f + nl) := by omega
  simp [PetscVector.map_global_to_local_index, VecCreateGhost, ha, hno,
    hfind]
  omega

/-- C7 witness: the duplicate-ghost rule evaluated on the concrete vector of
`c7res` (ghost list `[3, 3]`, owned range `[0,2)`): index 3 maps to local
offset `2 + 1`. -/
theorem c7_duplicate_ghost_last_wins_witness :
    freshV.is_initialized = false ∧ freshV.array_is_present = false ∧
    freshV.global_to_local_map = [] ∧
    freshV.init_ghosted false 4 2 [3, 3] false ParallelType.GHOSTED 0
        = Except.ok (c7res.1, c7res.2) ∧
    ([3, 3][0]? = some 3) ∧ (0 < 1) ∧ ([3, 3][1]? = some 3) ∧
    (3 < 0 ∨ 0 + 2 ≤ 3) ∧
    c7res.1.map_global_to_local_index false 3 = Except.ok (2 + 1) := by
  refine ⟨rfl, rfl, rfl, rfl, rfl, by decide, rfl, by decide, ?_⟩
  exact c7_duplicate_ghost_last_wins false false 4 2 [3, 3] false
    ParallelType.GHOSTED 0 freshV c7res.1 c7res.2 3 0 1 rfl rfl rfl rfl
    rfl (by decide) rfl
    (by
      intro m hm2
      obtain ⟨m2, rfl⟩ : ∃ m2, m = m2 + 2 := ⟨m - 2, by omega⟩
      simp)
    (by decide)

end LibMeshPetsc
